import Mathlib

/-!
Verification of the Procman order-management core (`src/Backup/app.py`,
`src/Backup/db.py`) against its natural-language specification.

The embedding models one sales order (pedido) together with its line items
(pedido_itens), its append-only audit log (pedido_logs) and its production
orders (ordens_producao), exactly as they are read and written by the
API handlers in `app.py`:

  * `_recalc_pedido_totais`        -> `recalcPedidoTotais`
  * `api_pedidos_create`           -> `apiPedidosCreate`
  * `api_pedidos_update`           -> `apiPedidosUpdate`
  * `api_pedido_itens_add`         -> `apiPedidoItensAdd`
  * `api_pedido_item_update`       -> `apiPedidoItemUpdate`
  * `api_pedido_item_delete`       -> `apiPedidoItemDelete`
  * `api_pedido_change_status`     -> `apiPedidoChangeStatus`
  * `api_op_create`                -> `apiOpCreate`
  * `gerar_codigo_pedido` (db.py)  -> `gerarCodigoPedido`

Conventions of the embedding:

  * SQL column values are modelled by `Val`: `null` is SQL NULL / JSON null /
    an absent key, `num q` is a numeric value (Python ints and floats are
    modelled as rationals), and `str s` is a string value on which Python's
    `float()` raises (the non-numeric strings; numeric strings are out of the
    modelled input space).
  * The database rows touched by the handlers are collected in `DB`; each
    handler is a pure function from `DB` (plus its request payload) to an
    `ApiResult` carrying the post-state and either the response payload or
    the error that was returned.  A handler that fails before writing
    returns the unchanged `DB`, as the Python code returns before executing
    any statement in those paths.
  * The `embalagem_master` lookup performed by `api_pedido_itens_add` is
    passed in as an `Option Emb` parameter (the row found for the requested
    `(embalagem_code, rev)` pair, or `none`).
  * Error responses are modelled structurally: `ApiErr.notFound` for the 404
    responses and `ApiErr.badRequest msg extra` for `bad_request(msg, extra)`,
    with `extra` carrying exactly the JSON keys the code adds.
-/

/-- A SQL / JSON scalar as handled by the Python code: NULL, a number, or a
non-numeric string (one on which Python `float()` raises). -/
inductive Val where
  | null : Val
  | num (q : ℚ) : Val
  | str (s : String) : Val
deriving DecidableEq, Repr

/-- Python truthiness of a `Val` (`None`, `0` and the empty string are falsy). -/
def Val.truthy : Val → Bool
  | .null => false
  | .num q => q ≠ 0
  | .str s => s ≠ ("")

/-- Python `float(v)`: succeeds on numbers, raises on NULL and on the
(non-numeric) strings of the model. -/
def Val.toNum : Val → Option ℚ
  | .num q => some q
  | _ => none

/-- Python expression `float(v or 0)`: a falsy value is replaced by `0`
before conversion; a truthy non-numeric value makes `float` raise (`none`). -/
def floatOrZero (v : Val) : Option ℚ :=
  if v.truthy then v.toNum else some 0

/-- Contribution of one line item to the totals sum: the body of the
`try: total += float(pu or 0) * float(qtd or 0) except: pass` loop in
`_recalc_pedido_totais`; `none` when the conversion raises and the item is
skipped. -/
def itemTerm (pu qtd : Val) : Option ℚ := do
  let a ← floatOrZero pu
  let b ← floatOrZero qtd
  pure (a * b)

/-- Order status enumeration (the TEXT values stored in `pedidos.status`). -/
inductive Status where
  | RASCUNHO | APROVADO | EM_EXECUCAO | CONCLUIDO | CANCELADO
deriving DecidableEq, Repr

/-- The TEXT form of a status as stored and compared by the code. -/
def Status.toStr : Status → String
  | .RASCUNHO => ("RASCUNHO")
  | .APROVADO => ("APROVADO")
  | .EM_EXECUCAO => ("EM_EXECUCAO")
  | .CONCLUIDO => ("CONCLUIDO")
  | .CANCELADO => ("CANCELADO")

/-- Python `str.upper()` as applied to the requested status (per-character
uppercase; the statuses involved are ASCII). -/
def strUpper (s : String) : String :=
  String.mk (s.data.map Char.toUpper)

/-- Membership test of the `allowed` set in `api_pedido_change_status`. -/
def parseStatus (s : String) : Option Status :=
  if s = ("RASCUNHO") then some .RASCUNHO
  else if s = ("APROVADO") then some .APROVADO
  else if s = ("EM_EXECUCAO") then some .EM_EXECUCAO
  else if s = ("CONCLUIDO") then some .CONCLUIDO
  else if s = ("CANCELADO") then some .CANCELADO
  else none

/-- The `transicoes_validas` table of `api_pedido_change_status`. -/
def transicoesValidas : Status → List Status
  | .RASCUNHO => [.APROVADO, .CANCELADO]
  | .APROVADO => [.EM_EXECUCAO, .CANCELADO]
  | .EM_EXECUCAO => [.CONCLUIDO, .CANCELADO]
  | .CONCLUIDO => []
  | .CANCELADO => []

/-- The columns of a `pedidos` row that the order/item/status handlers read
or write (status, the denormalized total, and the fallback inputs of the
Totals Engine; `quantidade_tipo` is carried because it is one of the
recalculation trigger keys of the header PATCH). -/
structure Pedido where
  status : Status
  preco_total : Val
  preco_base : Val
  quantidade_planejada : Val
  quantidade_tipo : Val
  numero_pedido : String
deriving DecidableEq, Repr

/-- A `pedido_itens` row as inserted by `api_pedido_itens_add`. -/
structure Item where
  id : Nat
  embalagem_code : String
  rev : Val
  descricao : Val
  qtd : Val
  qtd_tipo : Val
  preco_unit : Val
  preco_kg : Val
  peso_unit_kg : Val
  margem_toler_percent : Val
  snapshot_material : Val
  snapshot_espessura_um : Val
  snapshot_largura_mm : Val
  snapshot_altura_mm : Val
  snapshot_sanfona_mm : Val
  snapshot_aba_mm : Val
  snapshot_fita_tipo : Val
  snapshot_tratamento : Val
  snapshot_tratamento_dinas : Val
  snapshot_impresso : Val
  anel_extrusao : Val
  status_impressao : Val
  extrusado : Val
  qtde_extrusada_kg : Val
deriving DecidableEq, Repr

/-- Structured form of the `detalhe_json` payload of each audit action. -/
inductive LogDetail where
  | created (numero : String)
  | itemAdded (itemId : Nat) (embalagemCode : String)
  | itemUpdated (itemId : Nat) (changes : List (String × Val × Val))
  | itemDeleted (itemId : Nat)
  | updatedHdr (fields : List (String × Val × Val))
  | statusChanged (de para : String) (auto : Bool)
  | recalcTotal (de para : Val) (motivo : Option String)
  | opCreated (opId : Nat)
deriving DecidableEq, Repr

/-- One `pedido_logs` row: the action tag and its structured payload. -/
structure LogEntry where
  acao : String
  detail : LogDetail
deriving DecidableEq, Repr

/-- Extra JSON keys attached to a `bad_request` response. -/
inductive Extra where
  | noExtra
  | atualNovo (atual novo : String)
  | bloqueados (bl : List String)
deriving DecidableEq, Repr

/-- An error response of the handlers: a 404 `jsonify` error or a 400
`bad_request(msg, extra)`. -/
inductive ApiErr where
  | notFound (msg : String)
  | badRequest (msg : String) (extra : Extra)
deriving DecidableEq, Repr

/-- The database state of one order: its `pedidos` row, its `pedido_itens`
rows, its `pedido_logs` rows (in insertion order), the number of
`ordens_producao` rows referencing it, and the fresh-rowid sources. -/
structure DB where
  pedido : Pedido
  itens : List Item
  logs : List LogEntry
  nextItemId : Nat
  opsCount : Nat
  nextOpId : Nat
deriving DecidableEq, Repr

/-- Result of a handler run: post-state plus response payload, or the
pre-state (nothing was written on the failing paths) plus the error. -/
inductive ApiResult (α : Type) where
  | ok (db : DB) (a : α)
  | err (db : DB) (e : ApiErr)
deriving DecidableEq, Repr

/-- Post-state of a handler run, whether it succeeded or failed. -/
def ApiResult.state {α : Type} : ApiResult α → DB
  | .ok d _ => d
  | .err d _ => d

/-- Append one audit row (`INSERT INTO pedido_logs ...`). -/
def appendLog (db : DB) (acao : String) (d : LogDetail) : DB :=
  { db with logs := db.logs ++ [⟨acao, d⟩] }

/-- Sum of the item loop of `_recalc_pedido_totais`: items whose conversion
raises are skipped, all others contribute `float(pu or 0) * float(qtd or 0)`. -/
def sumItens (itens : List Item) : ℚ :=
  itens.foldl
    (fun acc it =>
      match itemTerm it.preco_unit it.qtd with
      | some x => acc + x
      | none => acc) 0

/-- Value computed by `_recalc_pedido_totais` from the fallback inputs and
the current items: the items sum when items exist; otherwise
`preco_base * quantidade_planejada` when both are non-NULL and convert,
the raw `preco_base` when both are non-NULL but a conversion raises
(the `except` branch), and NULL when either input is NULL. -/
def recalcValue (base qtdPlan : Val) (itens : List Item) : Val :=
  if itens.isEmpty then
    if base ≠ Val.null ∧ qtdPlan ≠ Val.null then
      match base.toNum, qtdPlan.toNum with
      | some a, some b => Val.num (a * b)
      | _, _ => base
    else Val.null
  else Val.num (sumItens itens)

/-- Embedding of `_recalc_pedido_totais`: computes the new total and
unconditionally executes `UPDATE pedidos SET preco_total=?`, returning the
new state together with the function's return value. -/
def recalcPedidoTotais (db : DB) : DB × Val :=
  let nt := recalcValue db.pedido.preco_base db.pedido.quantidade_planejada db.itens
  ({ db with pedido := { db.pedido with preco_total := nt } }, nt)

/-- The recompute-then-maybe-log block shared by the item add / update /
delete handlers: read the stored total, run `_recalc_pedido_totais`, and
append a RECALC_TOTAL entry when the returned value `is not None` and
differs from the old one (`motivo` is the `"motivo"` key of the payload,
absent in these three handlers). -/
def recalcAndLog (db : DB) (motivo : Option String) : DB :=
  let old := db.pedido.preco_total
  let p := recalcPedidoTotais db
  if p.2 ≠ Val.null ∧ p.2 ≠ old then
    appendLog p.1 ("RECALC_TOTAL") (.recalcTotal old p.2 motivo)
  else p.1

/-- The `embalagem_master` row used for the snapshot (result of the
`(embalagem_code, rev)` lookup in `api_pedido_itens_add`); `transparencia`
is a numeric-or-NULL column. -/
structure Emb where
  embalagem_code : String
  rev : Val
  material : Val
  espessura_um : Val
  largura_mm : Val
  altura_mm : Val
  sanfona_mm : Val
  aba_mm : Val
  fita_tipo : Val
  transparencia : Option ℚ
  impresso : Val
deriving DecidableEq, Repr

/-- The `snapshot_tratamento` expression of `api_pedido_itens_add`:
`1 if (emb["transparencia"] or 0) > -9999 and emb["transparencia"] is not None else 0`. -/
def tratFlag : Option ℚ → Val
  | none => Val.num 0
  | some q => if (if q = 0 then (0 : ℚ) else q) > -9999 then Val.num 1 else Val.num 0

/-- Request payload of `api_pedido_itens_add` (each `data.get(k)` value;
an absent key is `Val.null`). -/
structure AddItemReq where
  descricao : Val
  qtd : Val
  qtd_tipo : Val
  preco_unit : Val
  preco_kg : Val
  peso_unit_kg : Val
  margem_toler_percent : Val
  anel_extrusao : Val
  status_impressao : Val
deriving DecidableEq, Repr

/-- Embedding of `api_pedido_itens_add`: status gate, snapshot copy from the
package row, insert, ITEM_ADDED log, recomputation with conditional
RECALC_TOTAL log.  `embRow` is the `embalagem_master` lookup result. -/
def apiPedidoItensAdd (db : DB) (embRow : Option Emb) (req : AddItemReq) :
    ApiResult Item :=
  if db.pedido.status ≠ Status.RASCUNHO then
    .err db (.badRequest ("Pedido não está em RASCUNHO (itens bloqueados)") .noExtra)
  else
    match embRow with
    | none => .err db (.badRequest ("Embalagem não encontrada para snapshot") .noExtra)
    | some emb =>
      let it : Item :=
        { id := db.nextItemId
          embalagem_code := emb.embalagem_code
          rev := emb.rev
          descricao := if req.descricao.truthy then req.descricao else .str emb.embalagem_code
          qtd := req.qtd
          qtd_tipo := if req.qtd_tipo.truthy then req.qtd_tipo else .str ("UN")
          preco_unit := req.preco_unit
          preco_kg := req.preco_kg
          peso_unit_kg := req.peso_unit_kg
          margem_toler_percent := req.margem_toler_percent
          snapshot_material := emb.material
          snapshot_espessura_um := emb.espessura_um
          snapshot_largura_mm := emb.largura_mm
          snapshot_altura_mm := emb.altura_mm
          snapshot_sanfona_mm := emb.sanfona_mm
          snapshot_aba_mm := emb.aba_mm
          snapshot_fita_tipo := emb.fita_tipo
          snapshot_tratamento := tratFlag emb.transparencia
          snapshot_tratamento_dinas := .null
          snapshot_impresso := emb.impresso
          anel_extrusao := req.anel_extrusao
          status_impressao := if req.status_impressao.truthy then req.status_impressao else .str ("rascunho")
          extrusado := .num 0
          qtde_extrusada_kg := .null }
      let db1 := { db with itens := db.itens ++ [it], nextItemId := db.nextItemId + 1 }
      let db2 := appendLog db1 ("ITEM_ADDED") (.itemAdded it.id emb.embalagem_code)
      .ok (recalcAndLog db2 Option.none) it

/-- The `SELECT ... FROM pedido_itens WHERE id=? AND pedido_id=?` lookup. -/
def findItem (itens : List Item) (itemId : Nat) : Option Item :=
  itens.find? (fun it => it.id = itemId)

/-- Embedding of `api_pedido_item_delete`: RASCUNHO gate (checked before the
item lookup), existence check, delete, ITEM_DELETED log, recomputation with
conditional RECALC_TOTAL log. -/
def apiPedidoItemDelete (db : DB) (itemId : Nat) : ApiResult Unit :=
  if db.pedido.status ≠ Status.RASCUNHO then
    .err db (.badRequest ("Itens só podem ser removidos em RASCUNHO") .noExtra)
  else
    match findItem db.itens itemId with
    | none => .err db (.notFound ("item não encontrado"))
    | some _ =>
      let db1 := { db with itens := db.itens.filter (fun it => it.id ≠ itemId) }
      let db2 := appendLog db1 ("ITEM_DELETED") (.itemDeleted itemId)
      .ok (recalcAndLog db2 Option.none) ()

/-- The `base_allowed` / `draft_extra` sets of `api_pedido_item_update` as
selected for the current order status. -/
def allowedFields (st : Status) : List String :=
  if st = Status.RASCUNHO then
    [("status_impressao"), ("anel_extrusao"), ("descricao"), ("qtd"), ("qtd_tipo"),
     ("preco_unit"), ("preco_kg"), ("peso_unit_kg"), ("margem_toler_percent")]
  else
    [("status_impressao"), ("anel_extrusao")]

/-- The `k.startswith("snapshot_")` test of `api_pedido_item_update`. -/
def isSnapKey (k : String) : Bool :=
  ("snapshot_").data.isPrefixOf k.data

/-- The payload filter loop of `api_pedido_item_update`: snapshot-prefixed
keys are blocked, allowed keys become updates, the rest is blocked unless it
is `pedido_id` or `id` (those are silently dropped).  Returns
`(updates, blocked)` in payload order. -/
def filterFields (allowed : List String) :
    List (String × Val) → List (String × Val) × List String
  | [] => ([], [])
  | (k, v) :: rest =>
    let p := filterFields allowed rest
    if isSnapKey k then (p.1, k :: p.2)
    else if allowed.contains k then ((k, v) :: p.1, p.2)
    else if k = ("pedido_id") ∨ k = ("id") then p
    else (p.1, k :: p.2)

/-- One `SET k=?` assignment of the dynamic UPDATE statement of
`api_pedido_item_update`; only keys of `allowedFields` can reach it. -/
def applyField (it : Item) (kv : String × Val) : Item :=
  if kv.1 = ("status_impressao") then { it with status_impressao := kv.2 }
  else if kv.1 = ("anel_extrusao") then { it with anel_extrusao := kv.2 }
  else if kv.1 = ("descricao") then { it with descricao := kv.2 }
  else if kv.1 = ("qtd") then { it with qtd := kv.2 }
  else if kv.1 = ("qtd_tipo") then { it with qtd_tipo := kv.2 }
  else if kv.1 = ("preco_unit") then { it with preco_unit := kv.2 }
  else if kv.1 = ("preco_kg") then { it with preco_kg := kv.2 }
  else if kv.1 = ("peso_unit_kg") then { it with peso_unit_kg := kv.2 }
  else if kv.1 = ("margem_toler_percent") then { it with margem_toler_percent := kv.2 }
  else it

/-- The `item[k]` read used for the per-field diff of
`api_pedido_item_update`; only keys of `allowedFields` can reach it. -/
def getField (it : Item) (k : String) : Val :=
  if k = ("status_impressao") then it.status_impressao
  else if k = ("anel_extrusao") then it.anel_extrusao
  else if k = ("descricao") then it.descricao
  else if k = ("qtd") then it.qtd
  else if k = ("qtd_tipo") then it.qtd_tipo
  else if k = ("preco_unit") then it.preco_unit
  else if k = ("preco_kg") then it.preco_kg
  else if k = ("peso_unit_kg") then it.peso_unit_kg
  else if k = ("margem_toler_percent") then it.margem_toler_percent
  else Val.null

/-- The `UPDATE pedido_itens SET ... WHERE id=?` statement: the targeted row
is replaced, every other row is untouched. -/
def replaceItem (itens : List Item) (itemId : Nat) (newIt : Item) : List Item :=
  itens.map (fun it => if it.id = itemId then newIt else it)

/-- Embedding of `api_pedido_item_update`: terminal-status gate (checked
before the item lookup), item lookup, payload filtering by the status field
sets, no-permitted-field error carrying the blocked list, dynamic update,
ITEM_UPDATED diff log, recomputation with conditional RECALC_TOTAL log; the
response payload of the success path is the re-read item row alone. -/
def apiPedidoItemUpdate (db : DB) (itemId : Nat) (data : List (String × Val)) :
    ApiResult Item :=
  if db.pedido.status = Status.CONCLUIDO ∨ db.pedido.status = Status.CANCELADO then
    .err db (.badRequest ("Pedido não permite alterações em itens nesse status") .noExtra)
  else
    match findItem db.itens itemId with
    | none => .err db (.notFound ("item não encontrado"))
    | some item =>
      let p := filterFields (allowedFields db.pedido.status) data
      if p.1.isEmpty then
        .err db (.badRequest ("Nenhum campo permitido para atualização") (.bloqueados p.2))
      else
        let newItem := p.1.foldl applyField item
        let db1 := { db with itens := replaceItem db.itens itemId newItem }
        let diffs := (p.1.filter (fun kv => getField item kv.1 ≠ kv.2)).map
          (fun kv => (kv.1, getField item kv.1, kv.2))
        let db2 := if diffs.isEmpty then db1
                   else appendLog db1 ("ITEM_UPDATED") (.itemUpdated itemId diffs)
        .ok (recalcAndLog db2 Option.none) newItem

/-- Embedding of `api_pedido_change_status`: uppercase the requested status,
validate it against the `allowed` set, check the transition table, persist
the new status, append STATUS_CHANGED, and recompute totals (with no
RECALC_TOTAL log in this handler). -/
def apiPedidoChangeStatus (db : DB) (novoRaw : String) : ApiResult Pedido :=
  let novo := strUpper novoRaw
  match parseStatus novo with
  | none => .err db (.badRequest ("Status inválido") .noExtra)
  | some ns =>
    let atual := db.pedido.status
    if ns ∉ transicoesValidas atual then
      .err db (.badRequest ("Transição de status não permitida")
                 (.atualNovo atual.toStr novo))
    else
      let db1 := { db with pedido := { db.pedido with status := ns } }
      let db2 := appendLog db1 ("STATUS_CHANGED") (.statusChanged atual.toStr novo false)
      let db3 := (recalcPedidoTotais db2).1
      .ok db3 db3.pedido

/-- Request payload of `api_pedidos_create` restricted to the fields the
Totals Engine reads (every other inserted column is irrelevant to the
claims; an absent key is `Val.null`). -/
structure CreateReq where
  preco_total : Val
  preco_base : Val
  quantidade_planejada : Val
  quantidade_tipo : Val
deriving DecidableEq, Repr

/-- The zero-padded sequential code of `gerar_codigo_pedido` (`db.py`):
Python `f"PED-\x7bprox:06d\x7d"`, which left-pads the decimal form with
zeros to a minimum width of six digits. -/
def pad6 (n : Nat) : String :=
  let s := toString n
  String.mk (List.replicate (6 - s.length) ('0')) ++ s

/-- Embedding of `gerar_codigo_pedido`: read the `PED` row of `numeradores`
(`ultimo`), increment it, store it back, and return the formatted code.
The argument is the current counter value (0 when the row was just created
by the `INSERT OR IGNORE`); the result is the new counter value and the
code assigned to the order being created. -/
def gerarCodigoPedido (ultimo : Nat) : Nat × String :=
  (ultimo + 1, ("PED-") ++ pad6 (ultimo + 1))

/-- Embedding of `api_pedidos_create`: mint the sequential number, derive
the initial `preco_total` (the caller-supplied value when present, else
`preco_base * quantidade_planejada` when `preco_base` is non-NULL and
`quantidade_planejada` is truthy — with the raw `preco_base` as the
`except` fallback — else NULL), insert the row in status RASCUNHO with no
items, and append the CREATED log entry.  Returns the new counter value
and the created order's state. -/
def apiPedidosCreate (counter : Nat) (req : CreateReq) : Nat × DB :=
  let g := gerarCodigoPedido counter
  let pt :=
    if req.preco_total = Val.null then
      if req.preco_base ≠ Val.null ∧ req.quantidade_planejada.truthy then
        match req.preco_base.toNum, req.quantidade_planejada.toNum with
        | some a, some b => Val.num (a * b)
        | _, _ => req.preco_base
      else Val.null
    else req.preco_total
  (g.1,
   { pedido :=
       { status := Status.RASCUNHO
         preco_total := pt
         preco_base := req.preco_base
         quantidade_planejada := req.quantidade_planejada
         quantidade_tipo := if req.quantidade_tipo.truthy then req.quantidade_tipo else .str ("UN")
         numero_pedido := g.2 }
     itens := []
     logs := [⟨("CREATED"), .created g.2⟩]
     nextItemId := 1
     opsCount := 0
     nextOpId := 1 })

/-- Request payload of `api_pedidos_update` restricted to the allow-listed
fields the Totals Engine reads (`preco_base`, `quantidade_planejada`,
`quantidade_tipo`, `preco_total`); `none` is an absent key. -/
structure HdrPatch where
  preco_base : Option Val
  quantidade_planejada : Option Val
  quantidade_tipo : Option Val
  preco_total : Option Val
deriving DecidableEq, Repr

/-- Diff entry of one patched column (`changed[k]` of `api_pedidos_update`):
present when the stored value differs from the written one. -/
def hdrDiff (k : String) (old : Val) : Option Val → List (String × Val × Val)
  | none => []
  | some v => if old ≠ v then [(k, old, v)] else []

/-- Embedding of `api_pedidos_update` (the header PATCH): empty-payload
validation, RASCUNHO gate naming the current status, the
`preco_total := preco_base` replication for item-less orders, the dynamic
UPDATE, the UPDATED diff log, and the conditional recomputation that fires
only for item-less orders when a trigger key changed, logging RECALC_TOTAL
with the pre-patch total and the fixed reason string.  The response payload
is the row as re-read by the code (re-read after recomputation only on the
logged branch). -/
def apiPedidosUpdate (db : DB) (patch : HdrPatch) : ApiResult Pedido :=
  if patch.preco_base = none ∧ patch.quantidade_planejada = none ∧
     patch.quantidade_tipo = none ∧ patch.preco_total = none then
    .err db (.badRequest ("Nenhum campo permitido para atualização") .noExtra)
  else if db.pedido.status ≠ Status.RASCUNHO then
    .err db (.badRequest (("Pedido não pode mais ser editado (status atual = ")
               ++ db.pedido.status.toStr ++ (")")) .noExtra)
  else
    let itensCount := db.itens.length
    let clean :=
      if patch.preco_base ≠ none ∧ patch.preco_total = none ∧ itensCount = 0 then
        { patch with preco_total := patch.preco_base }
      else patch
    let old := db.pedido
    let newPed : Pedido :=
      { old with
        preco_base := clean.preco_base.getD old.preco_base
        quantidade_planejada := clean.quantidade_planejada.getD old.quantidade_planejada
        quantidade_tipo := clean.quantidade_tipo.getD old.quantidade_tipo
        preco_total := clean.preco_total.getD old.preco_total }
    let changed :=
      hdrDiff ("preco_base") old.preco_base clean.preco_base ++
      hdrDiff ("quantidade_planejada") old.quantidade_planejada clean.quantidade_planejada ++
      hdrDiff ("quantidade_tipo") old.quantidade_tipo clean.quantidade_tipo ++
      hdrDiff ("preco_total") old.preco_total clean.preco_total
    let db1 := { db with pedido := newPed }
    let db2 := if changed.isEmpty then db1
               else appendLog db1 ("UPDATED") (.updatedHdr changed)
    let trigger := changed.any (fun c =>
      c.1 = ("preco_base") ∨ c.1 = ("quantidade_planejada") ∨ c.1 = ("quantidade_tipo"))
    if itensCount = 0 ∧ trigger then
      let oldTotal := old.preco_total
      let p := recalcPedidoTotais db2
      if p.2 ≠ Val.null ∧ p.2 ≠ oldTotal then
        let db4 := appendLog p.1 ("RECALC_TOTAL")
          (.recalcTotal oldTotal p.2 (some ("patch campos base sem itens")))
        .ok db4 db4.pedido
      else .ok p.1 db2.pedido
    else .ok db2 db2.pedido

/-- Embedding of `api_op_create`: status gate, insert of the production
order, OP_CREATED log, and — when the order was APROVADO and the row count
after the insert is one — the automatic transition to EM_EXECUCAO with its
flagged STATUS_CHANGED entry. -/
def apiOpCreate (db : DB) : ApiResult Nat :=
  if db.pedido.status ≠ Status.APROVADO ∧ db.pedido.status ≠ Status.EM_EXECUCAO then
    .err db (.badRequest ("Pedido precisa estar APROVADO para gerar ordem") .noExtra)
  else
    let opId := db.nextOpId
    let db1 := { db with opsCount := db.opsCount + 1, nextOpId := db.nextOpId + 1 }
    let db2 := appendLog db1 ("OP_CREATED") (.opCreated opId)
    let db3 :=
      if db.pedido.status = Status.APROVADO ∧ db2.opsCount = 1 then
        appendLog { db2 with pedido := { db2.pedido with status := Status.EM_EXECUCAO } }
          ("STATUS_CHANGED") (.statusChanged ("APROVADO") ("EM_EXECUCAO") true)
      else db2
    .ok db3 opId

/-- One mutating call of the item / status surface of the core, as
dispatched to the handlers above. -/
inductive MutOp where
  | add (embRow : Option Emb) (req : AddItemReq)
  | upd (itemId : Nat) (data : List (String × Val))
  | del (itemId : Nat)
  | chg (novoRaw : String)

/-- Run one mutating call, keeping the post-state (the pre-state when the
call failed). -/
def runOp (db : DB) : MutOp → DB
  | .add embRow req => (apiPedidoItensAdd db embRow req).state
  | .upd itemId data => (apiPedidoItemUpdate db itemId data).state
  | .del itemId => (apiPedidoItemDelete db itemId).state
  | .chg novoRaw => (apiPedidoChangeStatus db novoRaw).state

/-- The Totals Engine consistency invariant: the stored `preco_total`
equals the value `_recalc_pedido_totais` would compute from the order's
current fallback fields and items. -/
def TotInv (db : DB) : Prop :=
  db.pedido.preco_total = recalcValue db.pedido.preco_base db.pedido.quantidade_planejada db.itens

instance : DecidablePred TotInv := fun db => by
  unfold TotInv; infer_instance

theorem totInv_recalcPedidoTotais (db : DB) : TotInv (recalcPedidoTotais db).1 := by
  simp [TotInv, recalcPedidoTotais]

theorem totInv_appendLog (db : DB) (a : String) (d : LogDetail) (h : TotInv db) :
    TotInv (appendLog db a d) := by
  simpa [TotInv, appendLog] using h

theorem totInv_recalcAndLog (db : DB) (m : Option String) : TotInv (recalcAndLog db m) := by
  unfold recalcAndLog
  dsimp only
  split
  · exact totInv_appendLog _ _ _ (totInv_recalcPedidoTotais db)
  · exact totInv_recalcPedidoTotais db

theorem totInv_runOp (db : DB) (op : MutOp) (h : TotInv db) : TotInv (runOp db op) := by
  cases op with
  | add embRow req =>
    show TotInv (apiPedidoItensAdd db embRow req).state
    unfold apiPedidoItensAdd
    dsimp only
    split
    · exact h
    · cases embRow with
      | none => exact h
      | some emb => exact totInv_recalcAndLog _ _
  | upd itemId data =>
    show TotInv (apiPedidoItemUpdate db itemId data).state
    unfold apiPedidoItemUpdate
    dsimp only
    split
    · exact h
    · cases hf : findItem db.itens itemId with
      | none => exact h
      | some item =>
        dsimp only
        split
        · exact h
        · exact totInv_recalcAndLog _ _
  | del itemId =>
    show TotInv (apiPedidoItemDelete db itemId).state
    unfold apiPedidoItemDelete
    dsimp only
    split
    · exact h
    · cases hf : findItem db.itens itemId with
      | none => exact h
      | some item => exact totInv_recalcAndLog _ _
  | chg novoRaw =>
    show TotInv (apiPedidoChangeStatus db novoRaw).state
    unfold apiPedidoChangeStatus
    dsimp only
    cases hp : parseStatus (strUpper novoRaw) with
    | none => exact h
    | some ns =>
      dsimp only
      split
      · exact h
      · exact totInv_recalcPedidoTotais _

/-- An order state satisfying the totals invariant, used to instantiate the
universally quantified theorems: a freshly created draft with no items and
no fallback inputs. -/
def dbDraft : DB :=
  { pedido :=
      { status := Status.RASCUNHO
        preco_total := Val.null
        preco_base := Val.null
        quantidade_planejada := Val.null
        quantidade_tipo := Val.str ("UN")
        numero_pedido := ("PED-000001") }
    itens := []
    logs := [⟨("CREATED"), .created ("PED-000001")⟩]
    nextItemId := 1
    opsCount := 0
    nextOpId := 1 }

/-- A sample package-specification row for instantiating item creation. -/
def embSample : Emb :=
  { embalagem_code := ("EMB1")
    rev := Val.str ("R00")
    material := Val.str ("PE")
    espessura_um := Val.num 40
    largura_mm := Val.num 100
    altura_mm := Val.num 200
    sanfona_mm := Val.num 0
    aba_mm := Val.num 0
    fita_tipo := Val.null
    transparencia := none
    impresso := Val.num 0 }

/-- A sample item-add request with quantity 5 at unit price 2. -/
def addReqSample : AddItemReq :=
  { descricao := Val.null
    qtd := Val.num 5
    qtd_tipo := Val.null
    preco_unit := Val.num 2
    preco_kg := Val.null
    peso_unit_kg := Val.null
    margem_toler_percent := Val.null
    anel_extrusao := Val.null
    status_impressao := Val.null }

/-- C1 (amended): after any sequence of item add, item update, item delete
and status-change calls on an order whose stored `preco_total` satisfies
the Totals Engine rule, the stored `preco_total` still equals the value
`_recalc_pedido_totais` computes from the current items / fallback fields —
each such call either fails leaving the state untouched or ends by
persisting exactly the recomputed value.  (The original claim also covered
order creation and the header patch; those two calls can store a
caller-supplied total that diverges from the rule, see the
counterexample.) -/
theorem C1_totals_invariant_after_sequences (db : DB) (ops : List MutOp)
    (h : TotInv db) : TotInv (ops.foldl runOp db) := by
  induction ops generalizing db with
  | nil => exact h
  | cons op rest ih => exact ih _ (totInv_runOp db op h)

theorem C1_totals_invariant_after_sequences_witness :
    TotInv (([MutOp.add (some embSample) addReqSample,
              MutOp.chg ("APROVADO")]).foldl runOp dbDraft) :=
  C1_totals_invariant_after_sequences dbDraft _ (by decide)

/-- C1 counterexample: `api_pedidos_create` is one of the mutating
operations of the claim, and it stores a caller-supplied `preco_total` of
100 even though the Totals Engine rule computes `preco_base ×
quantidade_planejada = 6` for the created (item-less) order, so the
invariant does not hold after every mutating call. -/
theorem C1_counterexample :
    (apiPedidosCreate 0
        { preco_total := Val.num 100, preco_base := Val.num 2,
          quantidade_planejada := Val.num 3,
          quantidade_tipo := Val.null }).2.pedido.preco_total = Val.num 100 ∧
    recalcValue (Val.num 2) (Val.num 3)
        (apiPedidosCreate 0
          { preco_total := Val.num 100, preco_base := Val.num 2,
            quantidade_planejada := Val.num 3,
            quantidade_tipo := Val.null }).2.itens = Val.num 6 ∧
    ¬ TotInv (apiPedidosCreate 0
        { preco_total := Val.num 100, preco_base := Val.num 2,
          quantidade_planejada := Val.num 3,
          quantidade_tipo := Val.null }).2 := by
  have h6 : recalcValue (Val.num 2) (Val.num 3) ([] : List Item) = Val.num (2 * 3) := rfl
  refine ⟨rfl, ?_, ?_⟩
  · rw [show (apiPedidosCreate 0
        { preco_total := Val.num 100, preco_base := Val.num 2,
          quantidade_planejada := Val.num 3,
          quantidade_tipo := Val.null }).2.itens = ([] : List Item) from rfl, h6]
    norm_num
  · intro hT
    unfold TotInv at hT
    rw [show (apiPedidosCreate 0
        { preco_total := Val.num 100, preco_base := Val.num 2,
          quantidade_planejada := Val.num 3,
          quantidade_tipo := Val.null }).2.pedido.preco_total = Val.num 100 from rfl] at hT
    rw [show recalcValue
        (apiPedidosCreate 0
          { preco_total := Val.num 100, preco_base := Val.num 2,
            quantidade_planejada := Val.num 3,
            quantidade_tipo := Val.null }).2.pedido.preco_base
        (apiPedidosCreate 0
          { preco_total := Val.num 100, preco_base := Val.num 2,
            quantidade_planejada := Val.num 3,
            quantidade_tipo := Val.null }).2.pedido.quantidade_planejada
        (apiPedidosCreate 0
          { preco_total := Val.num 100, preco_base := Val.num 2,
            quantidade_planejada := Val.num 3,
            quantidade_tipo := Val.null }).2.itens = Val.num (2 * 3) from rfl] at hT
    exact absurd (Val.num.inj hT) (by norm_num)

/-- C2: for every pair of statuses whose transition is not in the
`transicoes_validas` table, `api_pedido_change_status` fails with the
conflict error whose payload reports both the current and the requested
status, and returns with the stored order state unchanged. -/
theorem C2_invalid_transition_conflict (db : DB) (novo : Status)
    (h : novo ∉ transicoesValidas db.pedido.status) :
    apiPedidoChangeStatus db novo.toStr =
      .err db (.badRequest ("Transição de status não permitida")
        (.atualNovo db.pedido.status.toStr novo.toStr)) := by
  have hu : strUpper novo.toStr = novo.toStr := by cases novo <;> decide
  have hp : parseStatus (strUpper novo.toStr) = some novo := by cases novo <;> decide
  unfold apiPedidoChangeStatus
  dsimp only
  rw [hp]
  dsimp only
  rw [if_pos h, hu]

theorem C2_invalid_transition_conflict_witness :
    apiPedidoChangeStatus dbDraft Status.CONCLUIDO.toStr =
      .err dbDraft (.badRequest ("Transição de status não permitida")
        (.atualNovo ("RASCUNHO") ("CONCLUIDO"))) :=
  C2_invalid_transition_conflict dbDraft Status.CONCLUIDO (by decide)

/-- C3 (amended): on an order with zero line items, `_recalc_pedido_totais`
stores `preco_base × quantidade_planejada` when both fields are present and
numeric; when both are present but one is non-numeric it stores the raw
`preco_base` (the `except` fallback); and when either field is NULL it
overwrites the stored `preco_total` with NULL rather than leaving a
manually supplied total untouched.  Recomputation never raises an error.
(The original claim said the stored value is preserved whenever the
fallback cannot be computed; the code unconditionally executes the UPDATE,
see the counterexample.) -/
theorem C3_zero_item_fallback (db : DB) (h : db.itens = []) :
    (recalcPedidoTotais db).1.pedido.preco_total =
      (match db.pedido.preco_base, db.pedido.quantidade_planejada with
       | Val.num a, Val.num b => Val.num (a * b)
       | Val.null, _ => Val.null
       | _, Val.null => Val.null
       | _, _ => db.pedido.preco_base) := by
  simp only [recalcPedidoTotais, recalcValue, h, List.isEmpty_nil, if_true]
  rcases hb : db.pedido.preco_base with _ | a | s <;>
    rcases hq : db.pedido.quantidade_planejada with _ | b | t <;>
      simp [Val.toNum]

theorem C3_zero_item_fallback_witness :
    (recalcPedidoTotais dbDraft).1.pedido.preco_total = Val.null :=
  C3_zero_item_fallback dbDraft rfl

/-- An order with zero items, a NULL `preco_base` and a manually supplied
stored total of 100, as the header PATCH can produce. -/
def dbManualTotal : DB :=
  { pedido :=
      { status := Status.RASCUNHO
        preco_total := Val.num 100
        preco_base := Val.null
        quantidade_planejada := Val.num 3
        quantidade_tipo := Val.str ("UN")
        numero_pedido := ("PED-000002") }
    itens := []
    logs := []
    nextItemId := 1
    opsCount := 0
    nextOpId := 1 }

/-- C3 counterexample: with zero items and `preco_base` NULL the claim says
the stored total of 100 is left untouched, but `_recalc_pedido_totais`
overwrites it with NULL. -/
theorem C3_counterexample :
    dbManualTotal.itens = [] ∧
    dbManualTotal.pedido.preco_total = Val.num 100 ∧
    (recalcPedidoTotais dbManualTotal).1.pedido.preco_total = Val.null := by
  decide

/-- C10: both item delete and item update check the owning order's status
before looking the item up, so on an order whose status forbids the
operation a request naming a nonexistent item id fails with the
status-conflict error of the gate, not with the item 404. -/
theorem C10_gate_before_item_lookup (db : DB) (itemId : Nat)
    (data : List (String × Val)) (_hnone : findItem db.itens itemId = none) :
    (db.pedido.status ≠ Status.RASCUNHO →
      apiPedidoItemDelete db itemId =
        .err db (.badRequest ("Itens só podem ser removidos em RASCUNHO") .noExtra)) ∧
    (db.pedido.status = Status.CONCLUIDO ∨ db.pedido.status = Status.CANCELADO →
      apiPedidoItemUpdate db itemId data =
        .err db (.badRequest ("Pedido não permite alterações em itens nesse status")
          .noExtra)) := by
  constructor
  · intro hd
    unfold apiPedidoItemDelete
    rw [if_pos hd]
  · intro hu
    unfold apiPedidoItemUpdate
    rw [if_pos hu]

/-- An order in terminal status CONCLUIDO with no items. -/
def dbConcluido : DB :=
  { pedido :=
      { status := Status.CONCLUIDO
        preco_total := Val.null
        preco_base := Val.null
        quantidade_planejada := Val.null
        quantidade_tipo := Val.str ("UN")
        numero_pedido := ("PED-000003") }
    itens := []
    logs := []
    nextItemId := 1
    opsCount := 0
    nextOpId := 1 }

theorem C10_gate_before_item_lookup_witness :
    apiPedidoItemDelete dbConcluido 99 =
      .err dbConcluido (.badRequest ("Itens só podem ser removidos em RASCUNHO") .noExtra) ∧
    apiPedidoItemUpdate dbConcluido 99 [(("qtd"), Val.num 1)] =
      .err dbConcluido (.badRequest ("Pedido não permite alterações em itens nesse status")
        .noExtra) := by
  have h := C10_gate_before_item_lookup dbConcluido 99 [(("qtd"), Val.num 1)] (by decide)
  exact ⟨h.1 (by decide), h.2 (by decide)⟩

/-- The snapshot block of a line item: every stored field whose name begins
with the `snapshot_` prefix. -/
def snapBlock (it : Item) : Val × Val × Val × Val × Val × Val × Val × Val × Val × Val :=
  (it.snapshot_material, it.snapshot_espessura_um, it.snapshot_largura_mm,
   it.snapshot_altura_mm, it.snapshot_sanfona_mm, it.snapshot_aba_mm,
   it.snapshot_fita_tipo, it.snapshot_tratamento, it.snapshot_tratamento_dinas,
   it.snapshot_impresso)

theorem itens_appendLog (db : DB) (a : String) (d : LogDetail) :
    (appendLog db a d).itens = db.itens := rfl

theorem itens_recalcAndLog (db : DB) (m : Option String) :
    (recalcAndLog db m).itens = db.itens := by
  unfold recalcAndLog
  dsimp only
  split <;> rfl

theorem snapBlock_applyField (it : Item) (kv : String × Val) :
    snapBlock (applyField it kv) = snapBlock it := by
  unfold applyField
  split_ifs <;> rfl

theorem id_applyField (it : Item) (kv : String × Val) :
    (applyField it kv).id = it.id := by
  unfold applyField
  split_ifs <;> rfl

theorem snapBlock_foldl_applyField (l : List (String × Val)) (it : Item) :
    snapBlock (l.foldl applyField it) = snapBlock it := by
  induction l generalizing it with
  | nil => rfl
  | cons kv rest ih => rw [List.foldl_cons, ih, snapBlock_applyField]

theorem id_foldl_applyField (l : List (String × Val)) (it : Item) :
    (l.foldl applyField it).id = it.id := by
  induction l generalizing it with
  | nil => rfl
  | cons kv rest ih => rw [List.foldl_cons, ih, id_applyField]

/-- The id of a stored item paired with its snapshot block. -/
def idSnap (it : Item) :
    Nat × (Val × Val × Val × Val × Val × Val × Val × Val × Val × Val) :=
  (it.id, snapBlock it)

/-- C6: the snapshot block is immutable under item updates — for any
`api_pedido_item_update` call (any payload, any order status, successful or
not) on a store whose item ids are unique (they are the primary key), the
sequence of `(id, snapshot block)` pairs of the stored items is exactly the
same after the call as before it. -/
theorem C6_snapshot_block_immutable (db : DB) (itemId : Nat)
    (data : List (String × Val)) (hids : (db.itens.map Item.id).Nodup) :
    ((apiPedidoItemUpdate db itemId data).state).itens.map idSnap =
      db.itens.map idSnap := by
  unfold apiPedidoItemUpdate
  dsimp only
  split
  · rfl
  · rcases hf : findItem db.itens itemId with _ | item
    · rfl
    · dsimp only
      split
      · rfl
      · simp only [ApiResult.state, itens_recalcAndLog]
        have hitem : item ∈ db.itens := List.mem_of_find?_eq_some hf
        have hiditem : item.id = itemId := by simpa using List.find?_some hf
        have key : (replaceItem db.itens itemId
            ((filterFields (allowedFields db.pedido.status) data).1.foldl
              applyField item)).map idSnap = db.itens.map idSnap := by
          unfold replaceItem
          rw [List.map_map]
          refine List.map_congr_left ?_
          intro it hit
          by_cases hid : it.id = itemId
          · have heqit : it = item :=
              List.inj_on_of_nodup_map hids hit hitem (by rw [hid, hiditem])
            simp only [Function.comp_apply, if_pos hid]
            unfold idSnap
            rw [id_foldl_applyField, snapBlock_foldl_applyField, heqit]
          · simp only [Function.comp_apply, if_neg hid]
        split <;> simpa [itens_appendLog] using key

/-- Equality of two items on every stored field except the two planning
fields `status_impressao` and `anel_extrusao`. -/
def planningOnlyDiff (a b : Item) : Prop :=
  a.id = b.id ∧ a.embalagem_code = b.embalagem_code ∧ a.rev = b.rev ∧
  a.descricao = b.descricao ∧ a.qtd = b.qtd ∧ a.qtd_tipo = b.qtd_tipo ∧
  a.preco_unit = b.preco_unit ∧ a.preco_kg = b.preco_kg ∧
  a.peso_unit_kg = b.peso_unit_kg ∧ a.margem_toler_percent = b.margem_toler_percent ∧
  snapBlock a = snapBlock b ∧ a.extrusado = b.extrusado ∧
  a.qtde_extrusada_kg = b.qtde_extrusada_kg

theorem planningOnlyDiff_refl (a : Item) : planningOnlyDiff a a := by
  unfold planningOnlyDiff
  exact ⟨rfl, rfl, rfl, rfl, rfl, rfl, rfl, rfl, rfl, rfl, rfl, rfl, rfl⟩

theorem planningOnlyDiff_trans {a b c : Item}
    (h1 : planningOnlyDiff a b) (h2 : planningOnlyDiff b c) : planningOnlyDiff a c := by
  unfold planningOnlyDiff at h1 h2 ⊢
  obtain ⟨e1, e2, e3, e4, e5, e6, e7, e8, e9, e10, e11, e12, e13⟩ := h1
  obtain ⟨f1, f2, f3, f4, f5, f6, f7, f8, f9, f10, f11, f12, f13⟩ := h2
  exact ⟨e1.trans f1, e2.trans f2, e3.trans f3, e4.trans f4, e5.trans f5,
    e6.trans f6, e7.trans f7, e8.trans f8, e9.trans f9, e10.trans f10,
    e11.trans f11, e12.trans f12, e13.trans f13⟩

theorem planning_applyField (it : Item) (kv : String × Val)
    (h : kv.1 = ("status_impressao") ∨ kv.1 = ("anel_extrusao")) :
    planningOnlyDiff (applyField it kv) it := by
  rcases h with h | h <;> simp [applyField, h, planningOnlyDiff, snapBlock]

theorem planning_foldl_applyField (l : List (String × Val)) (it : Item)
    (h : ∀ kv ∈ l, kv.1 = ("status_impressao") ∨ kv.1 = ("anel_extrusao")) :
    planningOnlyDiff (l.foldl applyField it) it := by
  induction l generalizing it with
  | nil => exact planningOnlyDiff_refl _
  | cons hd tl ih =>
    rw [List.foldl_cons]
    exact planningOnlyDiff_trans
      (ih _ (fun kv hkv => h kv (List.mem_cons_of_mem _ hkv)))
      (planning_applyField it hd (h hd (List.mem_cons_self _ _)))

theorem filterFields_updates_allowed (allowed : List String)
    (data : List (String × Val)) :
    ∀ kv ∈ (filterFields allowed data).1, allowed.contains kv.1 = true := by
  induction data with
  | nil =>
    intro kv hkv
    simp [filterFields] at hkv
  | cons hd tl ih =>
    intro kv hkv
    obtain ⟨k, v⟩ := hd
    unfold filterFields at hkv
    dsimp only at hkv
    split at hkv
    · exact ih kv hkv
    · split at hkv
      · rcases List.mem_cons.mp hkv with rfl | hkv'
        · assumption
        · exact ih kv hkv'
      · split at hkv
        · exact ih kv hkv
        · exact ih kv hkv

/-- A sample stored line item (snapshot copied from `embSample`). -/
def itemSample : Item :=
  { id := 1
    embalagem_code := ("EMB1")
    rev := Val.str ("R00")
    descricao := Val.str ("EMB1")
    qtd := Val.num 5
    qtd_tipo := Val.str ("UN")
    preco_unit := Val.num 2
    preco_kg := Val.null
    peso_unit_kg := Val.null
    margem_toler_percent := Val.null
    snapshot_material := Val.str ("PE")
    snapshot_espessura_um := Val.num 40
    snapshot_largura_mm := Val.num 100
    snapshot_altura_mm := Val.num 200
    snapshot_sanfona_mm := Val.num 0
    snapshot_aba_mm := Val.num 0
    snapshot_fita_tipo := Val.null
    snapshot_tratamento := Val.num 0
    snapshot_tratamento_dinas := Val.null
    snapshot_impresso := Val.num 0
    anel_extrusao := Val.null
    status_impressao := Val.str ("rascunho")
    extrusado := Val.num 0
    qtde_extrusada_kg := Val.null }

/-- A draft order holding `itemSample`. -/
def dbWithItem : DB :=
  { pedido :=
      { status := Status.RASCUNHO
        preco_total := Val.null
        preco_base := Val.null
        quantidade_planejada := Val.null
        quantidade_tipo := Val.str ("UN")
        numero_pedido := ("PED-000004") }
    itens := [itemSample]
    logs := []
    nextItemId := 2
    opsCount := 0
    nextOpId := 1 }

/-- An approved order holding `itemSample`. -/
def dbAprovadoItem : DB :=
  { dbWithItem with pedido := { dbWithItem.pedido with status := Status.APROVADO } }

/-- A concluded order holding `itemSample`. -/
def dbConcluidoItem : DB :=
  { dbWithItem with pedido := { dbWithItem.pedido with status := Status.CONCLUIDO } }

theorem C6_snapshot_block_immutable_witness :
    ((apiPedidoItemUpdate dbWithItem 1
        [(("qtd"), Val.num 7), (("snapshot_material"), Val.str ("PP"))]).state).itens.map
        idSnap = dbWithItem.itens.map idSnap :=
  C6_snapshot_block_immutable dbWithItem 1
    [(("qtd"), Val.num 7), (("snapshot_material"), Val.str ("PP"))] (by decide)


theorem allowedFields_nonDraft (st : Status)
    (h : st = Status.APROVADO ∨ st = Status.EM_EXECUCAO) :
    allowedFields st = [("status_impressao"), ("anel_extrusao")] := by
  rcases h with h | h <;> rw [h] <;> rfl

theorem mem_pair_of_contains {k : String}
    (h : (([("status_impressao"), ("anel_extrusao")] : List String)).contains k = true) :
    k = ("status_impressao") ∨ k = ("anel_extrusao") := by
  simpa [List.contains, or_comm] using h

/-- Containment of a contiguous character run (substring test used to ask
whether an error message mentions a status name). -/
def subChars (needle : List Char) : List Char → Bool
  | [] => needle.isEmpty
  | c :: rest => needle.isPrefixOf (c :: rest) || subChars needle rest

/-- Substring test over strings. -/
def strMentions (hay needle : String) : Bool :=
  subChars needle.data hay.data

/-- Whether an error response reports the given status anywhere: as a
substring of its message or as one of the extra JSON values. -/
def errNamesStatus (e : ApiErr) (st : Status) : Bool :=
  match e with
  | .notFound m => strMentions m st.toStr
  | .badRequest m ex =>
    strMentions m st.toStr ||
    (match ex with
     | .atualNovo a n => a = st.toStr || n = st.toStr
     | _ => false)

/-- C5 (amended): item creation and deletion succeed only in RASCUNHO and
otherwise fail with the items-blocked conflicts; in APROVADO/EM_EXECUCAO a
successful update replaces the targeted item with a version that differs
from it in at most `status_impressao` and `anel_extrusao` (every other
field is blocked from changing); in CONCLUIDO/CANCELADO every update
request fails with the fixed conflict message.  (The original claim also
said the terminal conflict names the current status; the message is a
constant that does not include it, see the counterexample.) -/
theorem C5_item_mutation_gating (db : DB) (embRow : Option Emb)
    (req : AddItemReq) (itemId : Nat) (data : List (String × Val)) :
    (db.pedido.status ≠ Status.RASCUNHO →
      apiPedidoItensAdd db embRow req =
        .err db (.badRequest ("Pedido não está em RASCUNHO (itens bloqueados)") .noExtra) ∧
      apiPedidoItemDelete db itemId =
        .err db (.badRequest ("Itens só podem ser removidos em RASCUNHO") .noExtra)) ∧
    ((db.pedido.status = Status.APROVADO ∨ db.pedido.status = Status.EM_EXECUCAO) →
      ∀ item, findItem db.itens itemId = some item →
        ¬ (filterFields (allowedFields db.pedido.status) data).1.isEmpty = true →
        ((apiPedidoItemUpdate db itemId data).state).itens =
          replaceItem db.itens itemId
            ((filterFields (allowedFields db.pedido.status) data).1.foldl applyField item)
        ∧ planningOnlyDiff
            ((filterFields (allowedFields db.pedido.status) data).1.foldl applyField item)
            item) ∧
    ((db.pedido.status = Status.CONCLUIDO ∨ db.pedido.status = Status.CANCELADO) →
      apiPedidoItemUpdate db itemId data =
        .err db (.badRequest ("Pedido não permite alterações em itens nesse status")
          .noExtra)) := by
  refine ⟨fun hne => ⟨?_, ?_⟩, fun happ => ?_, fun hterm => ?_⟩
  · unfold apiPedidoItensAdd
    rw [if_pos hne]
  · unfold apiPedidoItemDelete
    rw [if_pos hne]
  · intro item hfind hpermitted
    have hterm' : ¬(db.pedido.status = Status.CONCLUIDO ∨
        db.pedido.status = Status.CANCELADO) := by
      rcases happ with h | h <;> rw [h] <;> decide
    constructor
    · unfold apiPedidoItemUpdate
      rw [if_neg hterm', hfind]
      dsimp only
      rw [if_neg hpermitted]
      simp only [ApiResult.state, itens_recalcAndLog]
      split <;> rfl
    · apply planning_foldl_applyField
      intro kv hkv
      have hc := filterFields_updates_allowed (allowedFields db.pedido.status) data kv hkv
      rw [allowedFields_nonDraft db.pedido.status happ] at hc
      exact mem_pair_of_contains hc
  · unfold apiPedidoItemUpdate
    rw [if_pos hterm]

theorem C5_item_mutation_gating_witness :
    (apiPedidoItensAdd dbAprovadoItem (some embSample) addReqSample =
       .err dbAprovadoItem
         (.badRequest ("Pedido não está em RASCUNHO (itens bloqueados)") .noExtra)) ∧
    (apiPedidoItemDelete dbAprovadoItem 1 =
       .err dbAprovadoItem
         (.badRequest ("Itens só podem ser removidos em RASCUNHO") .noExtra)) ∧
    (((apiPedidoItemUpdate dbAprovadoItem 1
          [(("status_impressao"), Val.str ("pendente"))]).state).itens =
       replaceItem dbAprovadoItem.itens 1
         ((filterFields (allowedFields dbAprovadoItem.pedido.status)
             [(("status_impressao"), Val.str ("pendente"))]).1.foldl applyField itemSample)) ∧
    planningOnlyDiff
      ((filterFields (allowedFields dbAprovadoItem.pedido.status)
          [(("status_impressao"), Val.str ("pendente"))]).1.foldl applyField itemSample)
      itemSample ∧
    (apiPedidoItemUpdate dbConcluidoItem 1 [(("qtd"), Val.num 1)] =
       .err dbConcluidoItem
         (.badRequest ("Pedido não permite alterações em itens nesse status") .noExtra)) := by
  have h1 := C5_item_mutation_gating dbAprovadoItem (some embSample) addReqSample 1
    [(("status_impressao"), Val.str ("pendente"))]
  have h2 := C5_item_mutation_gating dbConcluidoItem none addReqSample 1
    [(("qtd"), Val.num 1)]
  have hmid := h1.2.1 (by decide) itemSample (by decide) (by decide)
  exact ⟨(h1.1 (by decide)).1, (h1.1 (by decide)).2, hmid.1, hmid.2, h2.2.2 (by decide)⟩

/-- C5 counterexample: on a CONCLUIDO order an item update fails with the
constant conflict message, which does not report the current status in its
text or its extra payload (while, for contrast, the transition conflict of
the status handler does report statuses, so the mention test is not
vacuous). -/
theorem C5_counterexample :
    apiPedidoItemUpdate dbConcluidoItem 1 [(("qtd"), Val.num 1)] =
      .err dbConcluidoItem
        (.badRequest ("Pedido não permite alterações em itens nesse status") .noExtra) ∧
    errNamesStatus
      (.badRequest ("Pedido não permite alterações em itens nesse status") .noExtra)
      Status.CONCLUIDO = false ∧
    errNamesStatus
      (.badRequest ("Transição de status não permitida")
        (.atualNovo ("CONCLUIDO") ("APROVADO"))) Status.CONCLUIDO = true := by
  decide

/-- Whether a handler run succeeded. -/
def isOk {α : Type} : ApiResult α → Bool
  | .ok _ _ => true
  | .err _ _ => false

/-- The response payload of a successful handler run. -/
def okPayload {α : Type} : ApiResult α → Option α
  | .ok _ a => some a
  | .err _ _ => none

/-- The list of blocked field names a handler run reports to the caller
(the `bloqueados` key of its response); the success path of
`api_pedido_item_update` returns the bare item row, so it reports none. -/
def blockedReported {α : Type} : ApiResult α → Option (List String)
  | .err _ (.badRequest _ (.bloqueados bl)) => some bl
  | _ => none

/-- C7 (amended): an item update naming both permitted and forbidden fields
applies exactly the permitted subset and succeeds, but its successful
response is the bare updated item row: the blocked subset is not reported
alongside it.  The blocked list is reported only when no field at all is
permitted, as the payload of the `Nenhum campo permitido` error.  (The
original claim said partial success reports the blocked subset back to the
caller; it does not, see the counterexample.) -/
theorem C7_partial_success (db : DB) (itemId : Nat)
    (data : List (String × Val)) (item : Item)
    (hterm : ¬ (db.pedido.status = Status.CONCLUIDO ∨ db.pedido.status = Status.CANCELADO))
    (hfind : findItem db.itens itemId = some item) :
    (¬ (filterFields (allowedFields db.pedido.status) data).1.isEmpty = true →
      okPayload (apiPedidoItemUpdate db itemId data) =
        some ((filterFields (allowedFields db.pedido.status) data).1.foldl applyField item) ∧
      ((apiPedidoItemUpdate db itemId data).state).itens =
        replaceItem db.itens itemId
          ((filterFields (allowedFields db.pedido.status) data).1.foldl applyField item) ∧
      blockedReported (apiPedidoItemUpdate db itemId data) = none) ∧
    ((filterFields (allowedFields db.pedido.status) data).1.isEmpty = true →
      apiPedidoItemUpdate db itemId data =
        .err db (.badRequest ("Nenhum campo permitido para atualização")
          (.bloqueados (filterFields (allowedFields db.pedido.status) data).2))) := by
  constructor
  · intro hp
    refine ⟨?_, ?_, ?_⟩
    · unfold apiPedidoItemUpdate
      rw [if_neg hterm, hfind]
      dsimp only
      rw [if_neg hp]
      rfl
    · unfold apiPedidoItemUpdate
      rw [if_neg hterm, hfind]
      dsimp only
      rw [if_neg hp]
      simp only [ApiResult.state, itens_recalcAndLog]
      split <;> rfl
    · unfold apiPedidoItemUpdate
      rw [if_neg hterm, hfind]
      dsimp only
      rw [if_neg hp]
      rfl
  · intro hp
    unfold apiPedidoItemUpdate
    rw [if_neg hterm, hfind]
    dsimp only
    rw [if_pos hp]

theorem C7_partial_success_witness :
    okPayload (apiPedidoItemUpdate dbWithItem 1
        [(("qtd"), Val.num 7), (("snapshot_material"), Val.str ("PP"))]) =
      some ({ itemSample with qtd := Val.num 7 }) ∧
    blockedReported (apiPedidoItemUpdate dbWithItem 1
        [(("qtd"), Val.num 7), (("snapshot_material"), Val.str ("PP"))]) = none ∧
    apiPedidoItemUpdate dbWithItem 1 [(("snapshot_material"), Val.str ("PP"))] =
      .err dbWithItem (.badRequest ("Nenhum campo permitido para atualização")
        (.bloqueados [("snapshot_material")])) := by
  have h1 := C7_partial_success dbWithItem 1
    [(("qtd"), Val.num 7), (("snapshot_material"), Val.str ("PP"))] itemSample
    (by decide) (by decide)
  have h2 := C7_partial_success dbWithItem 1
    [(("snapshot_material"), Val.str ("PP"))] itemSample (by decide) (by decide)
  refine ⟨((h1.1 (by decide)).1).trans (by decide), (h1.1 (by decide)).2.2,
    (h2.2 (by decide)).trans (by decide)⟩

/-- C7 counterexample: the request naming the permitted `qtd` and the
forbidden `snapshot_material` succeeds and applies `qtd`, but the
successful response reports no blocked subset at all. -/
theorem C7_counterexample :
    isOk (apiPedidoItemUpdate dbWithItem 1
        [(("qtd"), Val.num 7), (("snapshot_material"), Val.str ("PP"))]) = true ∧
    okPayload (apiPedidoItemUpdate dbWithItem 1
        [(("qtd"), Val.num 7), (("snapshot_material"), Val.str ("PP"))]) =
      some ({ itemSample with qtd := Val.num 7 }) ∧
    blockedReported (apiPedidoItemUpdate dbWithItem 1
        [(("qtd"), Val.num 7), (("snapshot_material"), Val.str ("PP"))]) = none := by
  decide

/-- The RECALC_TOTAL entry appended after a recomputation whose returned
value `is not None` and differs from the previously stored one (empty
otherwise). -/
def recalcSuffix (old nt : Val) (motivo : Option String) : List LogEntry :=
  if nt ≠ Val.null ∧ nt ≠ old then [⟨("RECALC_TOTAL"), .recalcTotal old nt motivo⟩] else []

/-- The RECALC_TOTAL-tagged entries of an audit log. -/
def recalcEntries (logs : List LogEntry) : List LogEntry :=
  logs.filter (fun e => e.acao = ("RECALC_TOTAL"))

/-- The value the Totals Engine computes from a handler run's post-state. -/
def postRecalcValue {α : Type} (r : ApiResult α) : Val :=
  recalcValue r.state.pedido.preco_base r.state.pedido.quantidade_planejada r.state.itens

theorem recalcEntries_append (a b : List LogEntry) :
    recalcEntries (a ++ b) = recalcEntries a ++ recalcEntries b := by
  simp [recalcEntries]

theorem recalcEntries_recalcSuffix (old nt : Val) (m : Option String) :
    recalcEntries (recalcSuffix old nt m) = recalcSuffix old nt m := by
  unfold recalcSuffix
  split <;> simp [recalcEntries]

theorem pedido_fields_recalcAndLog (db : DB) (m : Option String) :
    (recalcAndLog db m).pedido.preco_base = db.pedido.preco_base ∧
    (recalcAndLog db m).pedido.quantidade_planejada = db.pedido.quantidade_planejada := by
  unfold recalcAndLog recalcPedidoTotais appendLog
  dsimp only
  split <;> exact ⟨rfl, rfl⟩

theorem postVal_recalcAndLog (db : DB) (m : Option String) :
    recalcValue (recalcAndLog db m).pedido.preco_base
      (recalcAndLog db m).pedido.quantidade_planejada (recalcAndLog db m).itens =
      (recalcPedidoTotais db).2 := by
  rw [(pedido_fields_recalcAndLog db m).1, (pedido_fields_recalcAndLog db m).2,
    itens_recalcAndLog]
  rfl

theorem logs_recalcAndLog (db : DB) (m : Option String) :
    (recalcAndLog db m).logs =
      db.logs ++ recalcSuffix db.pedido.preco_total (recalcPedidoTotais db).2 m := by
  unfold recalcAndLog recalcSuffix
  dsimp only
  split
  · simp [appendLog, recalcPedidoTotais]
  · simp [recalcPedidoTotais]

theorem recalcEntries_recalcAndLog (db : DB) (m : Option String) :
    recalcEntries (recalcAndLog db m).logs =
      recalcEntries db.logs ++
        recalcSuffix db.pedido.preco_total (recalcPedidoTotais db).2 m := by
  rw [logs_recalcAndLog, recalcEntries_append, recalcEntries_recalcSuffix]

theorem parse_strUpper_toStr (s : Status) :
    parseStatus (strUpper s.toStr) = some s := by
  cases s <;> decide

theorem recalc_block_spec (db0 dbPre : DB) (m : Option String)
    (hlogs : recalcEntries dbPre.logs = recalcEntries db0.logs)
    (htot : dbPre.pedido.preco_total = db0.pedido.preco_total) :
    (recalcAndLog dbPre m).pedido.preco_total =
      recalcValue (recalcAndLog dbPre m).pedido.preco_base
        (recalcAndLog dbPre m).pedido.quantidade_planejada (recalcAndLog dbPre m).itens ∧
    recalcEntries (recalcAndLog dbPre m).logs =
      recalcEntries db0.logs ++
        recalcSuffix db0.pedido.preco_total
          (recalcValue (recalcAndLog dbPre m).pedido.preco_base
            (recalcAndLog dbPre m).pedido.quantidade_planejada
            (recalcAndLog dbPre m).itens) m := by
  constructor
  · exact totInv_recalcAndLog _ _
  · rw [recalcEntries_recalcAndLog, postVal_recalcAndLog, hlogs, htot]

/-- C4 (amended): whenever item add, item update or item delete succeeds,
the recomputed total is persisted and the RECALC_TOTAL entries gain exactly
the conditional entry `recalcSuffix old new none` — appended only when the
recomputed value is non-null and differs from the stored one, carrying the
old and new values but NO reason; a price-relevant header patch on an
item-less order persists the product and appends the entry WITH the fixed
reason string; and a successful status change persists the recomputed
total but never appends any RECALC_TOTAL entry.  (The original claim
required a reason naming the trigger on every entry and an entry on status
change whenever the value changed; see the counterexample.) -/
theorem C4_recalc_total_logging (db : DB) (emb : Emb) (req : AddItemReq)
    (itemId : Nat) (data : List (String × Val)) (item : Item) (novo : Status)
    (u w : ℚ) :
    (db.pedido.status = Status.RASCUNHO →
      (apiPedidoItensAdd db (some emb) req).state.pedido.preco_total =
        postRecalcValue (apiPedidoItensAdd db (some emb) req) ∧
      recalcEntries (apiPedidoItensAdd db (some emb) req).state.logs =
        recalcEntries db.logs ++
          recalcSuffix db.pedido.preco_total
            (postRecalcValue (apiPedidoItensAdd db (some emb) req)) Option.none) ∧
    (¬ (db.pedido.status = Status.CONCLUIDO ∨ db.pedido.status = Status.CANCELADO) →
      findItem db.itens itemId = some item →
      ¬ (filterFields (allowedFields db.pedido.status) data).1.isEmpty = true →
      (apiPedidoItemUpdate db itemId data).state.pedido.preco_total =
        postRecalcValue (apiPedidoItemUpdate db itemId data) ∧
      recalcEntries (apiPedidoItemUpdate db itemId data).state.logs =
        recalcEntries db.logs ++
          recalcSuffix db.pedido.preco_total
            (postRecalcValue (apiPedidoItemUpdate db itemId data)) Option.none) ∧
    (db.pedido.status = Status.RASCUNHO → findItem db.itens itemId = some item →
      (apiPedidoItemDelete db itemId).state.pedido.preco_total =
        postRecalcValue (apiPedidoItemDelete db itemId) ∧
      recalcEntries (apiPedidoItemDelete db itemId).state.logs =
        recalcEntries db.logs ++
          recalcSuffix db.pedido.preco_total
            (postRecalcValue (apiPedidoItemDelete db itemId)) Option.none) ∧
    (db.pedido.status = Status.RASCUNHO → db.itens = [] →
      db.pedido.preco_total = Val.null →
      db.pedido.quantidade_planejada = Val.num w →
      db.pedido.preco_base ≠ Val.num u →
      (apiPedidosUpdate db ⟨some (Val.num u), none, none, none⟩).state.pedido.preco_total =
        Val.num (u * w) ∧
      recalcEntries
          (apiPedidosUpdate db ⟨some (Val.num u), none, none, none⟩).state.logs =
        recalcEntries db.logs ++
          [⟨("RECALC_TOTAL"), .recalcTotal Val.null (Val.num (u * w))
              (some ("patch campos base sem itens"))⟩]) ∧
    (novo ∈ transicoesValidas db.pedido.status →
      (apiPedidoChangeStatus db novo.toStr).state.pedido.preco_total =
        postRecalcValue (apiPedidoChangeStatus db novo.toStr) ∧
      recalcEntries (apiPedidoChangeStatus db novo.toStr).state.logs =
        recalcEntries db.logs) := by
  refine ⟨fun hdraft => ?_, fun hterm hfind hp => ?_, fun hdraft hfind => ?_,
    fun hdraft hitens hpt hqty hv => ?_, fun htrans => ?_⟩
  · unfold apiPedidoItensAdd
    rw [if_neg (not_not_intro hdraft)]
    dsimp only
    simp only [postRecalcValue, ApiResult.state]
    exact recalc_block_spec db _ Option.none
      (by simp [appendLog, recalcEntries]) rfl
  · unfold apiPedidoItemUpdate
    rw [if_neg hterm, hfind]
    dsimp only
    rw [if_neg hp]
    simp only [postRecalcValue, ApiResult.state]
    refine recalc_block_spec db _ Option.none ?_ ?_
    · split <;> simp [appendLog, recalcEntries]
    · split <;> rfl
  · unfold apiPedidoItemDelete
    rw [if_neg (not_not_intro hdraft), hfind]
    dsimp only
    simp only [postRecalcValue, ApiResult.state]
    exact recalc_block_spec db _ Option.none
      (by simp [appendLog, recalcEntries]) rfl
  · unfold apiPedidosUpdate
    simp [hdraft, hitens, hpt, hqty, hv, hdrDiff, appendLog, recalcPedidoTotais,
      recalcValue, Val.toNum, recalcEntries, ApiResult.state]
  · unfold apiPedidoChangeStatus
    dsimp only
    rw [parse_strUpper_toStr]
    dsimp only
    rw [if_neg (not_not_intro htrans)]
    constructor
    · exact totInv_recalcPedidoTotais _
    · simp [ApiResult.state, recalcPedidoTotais, appendLog, recalcEntries]

/-- A draft order with no items, no stored total, and numeric planned
quantity, ready for a price-relevant header patch. -/
def dbBaseQty : DB :=
  { dbDraft with pedido := { dbDraft.pedido with quantidade_planejada := Val.num 3 } }

theorem C4_recalc_total_logging_witness :
    ((apiPedidoItensAdd dbWithItem (some embSample) addReqSample).state.pedido.preco_total =
       postRecalcValue (apiPedidoItensAdd dbWithItem (some embSample) addReqSample) ∧
     recalcEntries (apiPedidoItensAdd dbWithItem (some embSample) addReqSample).state.logs =
       recalcEntries dbWithItem.logs ++
         recalcSuffix dbWithItem.pedido.preco_total
           (postRecalcValue (apiPedidoItensAdd dbWithItem (some embSample) addReqSample))
           Option.none) ∧
    ((apiPedidoItemUpdate dbWithItem 1 [(("qtd"), Val.num 7)]).state.pedido.preco_total =
       postRecalcValue (apiPedidoItemUpdate dbWithItem 1 [(("qtd"), Val.num 7)]) ∧
     recalcEntries (apiPedidoItemUpdate dbWithItem 1 [(("qtd"), Val.num 7)]).state.logs =
       recalcEntries dbWithItem.logs ++
         recalcSuffix dbWithItem.pedido.preco_total
           (postRecalcValue (apiPedidoItemUpdate dbWithItem 1 [(("qtd"), Val.num 7)]))
           Option.none) ∧
    ((apiPedidoItemDelete dbWithItem 1).state.pedido.preco_total =
       postRecalcValue (apiPedidoItemDelete dbWithItem 1) ∧
     recalcEntries (apiPedidoItemDelete dbWithItem 1).state.logs =
       recalcEntries dbWithItem.logs ++
         recalcSuffix dbWithItem.pedido.preco_total
           (postRecalcValue (apiPedidoItemDelete dbWithItem 1)) Option.none) ∧
    ((apiPedidosUpdate dbBaseQty ⟨some (Val.num 4), none, none, none⟩).state.pedido.preco_total =
       Val.num (4 * 3) ∧
     recalcEntries
         (apiPedidosUpdate dbBaseQty ⟨some (Val.num 4), none, none, none⟩).state.logs =
       recalcEntries dbBaseQty.logs ++
         [⟨("RECALC_TOTAL"), .recalcTotal Val.null (Val.num (4 * 3))
             (some ("patch campos base sem itens"))⟩]) ∧
    ((apiPedidoChangeStatus dbWithItem Status.APROVADO.toStr).state.pedido.preco_total =
       postRecalcValue (apiPedidoChangeStatus dbWithItem Status.APROVADO.toStr) ∧
     recalcEntries
         (apiPedidoChangeStatus dbWithItem Status.APROVADO.toStr).state.logs =
       recalcEntries dbWithItem.logs) := by
  have h1 := C4_recalc_total_logging dbWithItem embSample addReqSample 1
    [(("qtd"), Val.num 7)] itemSample Status.APROVADO 0 0
  have h2 := C4_recalc_total_logging dbBaseQty embSample addReqSample 1
    [] itemSample Status.APROVADO 4 3
  exact ⟨h1.1 (by decide), h1.2.1 (by decide) (by decide) (by decide),
    h1.2.2.1 (by decide) (by decide),
    h2.2.2.2.1 (by decide) (by decide) (by decide) (by decide) (by decide),
    h1.2.2.2.2 (by decide)⟩

/-- A draft order holding `itemSample` whose stored total 999 disagrees
with the items sum (as a direct `preco_total` patch can produce). -/
def dbWrongTotal : DB :=
  { dbWithItem with pedido := { dbWithItem.pedido with preco_total := Val.num 999 } }

/-- C4 counterexample: a successful status change recomputes a total (10)
that differs from the stored one (999) and persists it, yet appends no
RECALC_TOTAL entry at all; and the RECALC_TOTAL entry appended by an item
add carries no reason (`motivo = none`). -/
theorem C4_counterexample :
    dbWrongTotal.pedido.preco_total = Val.num 999 ∧
    postRecalcValue (apiPedidoChangeStatus dbWrongTotal ("APROVADO")) = Val.num 10 ∧
    (apiPedidoChangeStatus dbWrongTotal ("APROVADO")).state.pedido.preco_total =
      Val.num 10 ∧
    recalcEntries (apiPedidoChangeStatus dbWrongTotal ("APROVADO")).state.logs = [] ∧
    recalcEntries dbWrongTotal.logs = [] ∧
    recalcEntries (apiPedidoItensAdd dbDraft (some embSample) addReqSample).state.logs =
      [⟨("RECALC_TOTAL"), .recalcTotal Val.null (Val.num (0 + 2 * 5)) Option.none⟩] := by
  refine ⟨rfl, ?_, ?_, by decide, rfl, rfl⟩
  · rw [show postRecalcValue (apiPedidoChangeStatus dbWrongTotal ("APROVADO")) =
        Val.num (0 + 2 * 5) from rfl]
    norm_num
  · rw [show (apiPedidoChangeStatus dbWrongTotal ("APROVADO")).state.pedido.preco_total =
        Val.num (0 + 2 * 5) from rfl]
    norm_num

/-- C8: production-order creation is rejected unless the order is APROVADO
or EM_EXECUCAO; on success OP_CREATED is appended; and exactly when the
order was APROVADO and the row count after the insert is one, the order
auto-transitions to EM_EXECUCAO with the flagged STATUS_CHANGED entry
appended after OP_CREATED, in that order. -/
theorem C8_production_order_trigger (db : DB) :
    ((db.pedido.status ≠ Status.APROVADO ∧ db.pedido.status ≠ Status.EM_EXECUCAO) →
      apiOpCreate db =
        .err db (.badRequest ("Pedido precisa estar APROVADO para gerar ordem") .noExtra)) ∧
    (db.pedido.status = Status.APROVADO → db.opsCount = 0 →
      isOk (apiOpCreate db) = true ∧
      (apiOpCreate db).state.pedido.status = Status.EM_EXECUCAO ∧
      (apiOpCreate db).state.opsCount = 1 ∧
      (apiOpCreate db).state.logs = db.logs ++
        [⟨("OP_CREATED"), .opCreated db.nextOpId⟩,
         ⟨("STATUS_CHANGED"), .statusChanged ("APROVADO") ("EM_EXECUCAO") true⟩]) ∧
    (db.pedido.status = Status.APROVADO → db.opsCount ≠ 0 →
      isOk (apiOpCreate db) = true ∧
      (apiOpCreate db).state.pedido.status = Status.APROVADO ∧
      (apiOpCreate db).state.logs = db.logs ++
        [⟨("OP_CREATED"), .opCreated db.nextOpId⟩]) ∧
    (db.pedido.status = Status.EM_EXECUCAO →
      isOk (apiOpCreate db) = true ∧
      (apiOpCreate db).state.pedido.status = Status.EM_EXECUCAO ∧
      (apiOpCreate db).state.logs = db.logs ++
        [⟨("OP_CREATED"), .opCreated db.nextOpId⟩]) := by
  refine ⟨fun hng => ?_, fun hA h0 => ?_, fun hA h0 => ?_, fun hE => ?_⟩
  · unfold apiOpCreate
    rw [if_pos hng]
  · unfold apiOpCreate
    rw [if_neg (fun hc => hc.1 hA)]
    dsimp only
    rw [if_pos ⟨hA, by simp [appendLog, h0]⟩]
    refine ⟨rfl, rfl, ?_, ?_⟩
    · simp [ApiResult.state, appendLog, h0]
    · simp [ApiResult.state, appendLog]
  · unfold apiOpCreate
    rw [if_neg (fun hc => hc.1 hA)]
    dsimp only
    rw [if_neg (by
      intro hc
      have h2 := hc.2
      simp [appendLog] at h2
      omega)]
    exact ⟨rfl, hA, by simp [ApiResult.state, appendLog]⟩
  · unfold apiOpCreate
    rw [if_neg (fun hc => hc.2 hE)]
    dsimp only
    rw [if_neg (by
      intro hc
      rw [hE] at hc
      exact absurd hc.1 (by decide))]
    exact ⟨rfl, hE, by simp [ApiResult.state, appendLog]⟩

/-- An approved order that already has one production order. -/
def dbAprovadoComOp : DB := { dbAprovadoItem with opsCount := 1, nextOpId := 2 }

/-- An order in execution holding `itemSample`. -/
def dbEmExecucao : DB :=
  { dbWithItem with pedido := { dbWithItem.pedido with status := Status.EM_EXECUCAO } }

theorem C8_production_order_trigger_witness :
    (apiOpCreate dbDraft =
      .err dbDraft (.badRequest ("Pedido precisa estar APROVADO para gerar ordem") .noExtra)) ∧
    (isOk (apiOpCreate dbAprovadoItem) = true ∧
     (apiOpCreate dbAprovadoItem).state.pedido.status = Status.EM_EXECUCAO ∧
     (apiOpCreate dbAprovadoItem).state.opsCount = 1 ∧
     (apiOpCreate dbAprovadoItem).state.logs = dbAprovadoItem.logs ++
       [⟨("OP_CREATED"), .opCreated dbAprovadoItem.nextOpId⟩,
        ⟨("STATUS_CHANGED"), .statusChanged ("APROVADO") ("EM_EXECUCAO") true⟩]) ∧
    (isOk (apiOpCreate dbAprovadoComOp) = true ∧
     (apiOpCreate dbAprovadoComOp).state.pedido.status = Status.APROVADO ∧
     (apiOpCreate dbAprovadoComOp).state.logs = dbAprovadoComOp.logs ++
       [⟨("OP_CREATED"), .opCreated dbAprovadoComOp.nextOpId⟩]) ∧
    (isOk (apiOpCreate dbEmExecucao) = true ∧
     (apiOpCreate dbEmExecucao).state.pedido.status = Status.EM_EXECUCAO ∧
     (apiOpCreate dbEmExecucao).state.logs = dbEmExecucao.logs ++
       [⟨("OP_CREATED"), .opCreated dbEmExecucao.nextOpId⟩]) := by
  exact ⟨(C8_production_order_trigger dbDraft).1 (by decide),
    (C8_production_order_trigger dbAprovadoItem).2.1 (by decide) (by decide),
    (C8_production_order_trigger dbAprovadoComOp).2.2.1 (by decide) (by decide),
    (C8_production_order_trigger dbEmExecucao).2.2.2 (by decide)⟩

/-- The formatted order number (Python `f"PED-\x7bprox:06d\x7d"`). -/
def pedCode (n : Nat) : String :=
  ("PED-") ++ pad6 n

/-- N successive order creations threaded through the shared `PED` counter
(the state of the `numeradores` row): each creation calls
`gerar_codigo_pedido` inside its transaction, obtaining the assigned
integer and its formatted code. -/
def criarPedidosSeq (c : Nat) : Nat → List (Nat × String)
  | 0 => []
  | n + 1 =>
    let g := gerarCodigoPedido c
    (g.1, g.2) :: criarPedidosSeq g.1 n

theorem criarPedidosSeq_fst (c N : Nat) :
    (criarPedidosSeq c N).map Prod.fst = List.range' (c + 1) N := by
  induction N generalizing c with
  | zero => rfl
  | succ n ih =>
    simp only [criarPedidosSeq, gerarCodigoPedido, List.map_cons, List.range'_succ]
    exact congrArg (List.cons (c + 1)) (ih (c + 1))

/-- C9: creating N orders from counter value c assigns the integers
c+1, …, c+N — strictly increasing, duplicate-free, and gap-free — and each
order's number is that integer formatted as `PED-` plus its decimal form
left-padded with zeros to a minimum width of six digits. -/
theorem C9_order_numbers (c N : Nat) :
    (criarPedidosSeq c N).map Prod.fst = List.range' (c + 1) N ∧
    List.Pairwise (· < ·) ((criarPedidosSeq c N).map Prod.fst) ∧
    ((criarPedidosSeq c N).map Prod.fst).Nodup ∧
    (∀ i : Nat, i + 1 < N →
      ((criarPedidosSeq c N).map Prod.fst).getD (i + 1) 0 =
        ((criarPedidosSeq c N).map Prod.fst).getD i 0 + 1) ∧
    (criarPedidosSeq c N).map Prod.snd = (List.range' (c + 1) N).map pedCode ∧
    (∀ n : Nat, (pad6 n).length = max 6 (toString n).length) := by
  refine ⟨criarPedidosSeq_fst c N, ?_, ?_, ?_, ?_, ?_⟩
  · rw [criarPedidosSeq_fst]
    exact List.pairwise_lt_range' _ _
  · rw [criarPedidosSeq_fst]
    exact List.nodup_range' _ _
  · intro i h
    rw [criarPedidosSeq_fst]
    rw [List.getD_eq_getElem _ _ (by simpa [List.length_range'] using h),
      List.getD_eq_getElem _ _ (by simp [List.length_range']; omega)]
    simp [List.getElem_range']
    omega
  · induction N generalizing c with
    | zero => rfl
    | succ n ih =>
      simp only [criarPedidosSeq, gerarCodigoPedido, List.map_cons, List.range'_succ,
        pedCode]
      exact congrArg (List.cons (("PED-") ++ pad6 (c + 1))) (ih (c + 1))
  · intro n
    show (String.mk (List.replicate (6 - (toString n).length) ('0')) ++ toString n).length =
      max 6 (toString n).length
    rw [String.length_append]
    show (List.replicate (6 - (toString n).length) ('0')).length + (toString n).length =
      max 6 (toString n).length
    rw [List.length_replicate]
    omega

theorem C9_order_numbers_witness :
    (criarPedidosSeq 0 3).map Prod.fst = List.range' 1 3 ∧
    ((criarPedidosSeq 0 3).map Prod.fst).getD 2 0 =
      ((criarPedidosSeq 0 3).map Prod.fst).getD 1 0 + 1 ∧
    (criarPedidosSeq 0 3).map Prod.snd = (List.range' 1 3).map pedCode ∧
    (pad6 42).length = max 6 (toString 42).length ∧
    pedCode 42 = ("PED-000042") := by
  have h := C9_order_numbers 0 3
  exact ⟨h.1, h.2.2.2.1 1 (by decide), h.2.2.2.2.1, h.2.2.2.2.2 42, by decide⟩
